import Mathlib

/-!
Verification development for the DBusServer core (`dbus/dbus-server.c`).

The C module is shallowly embedded:
* `dbus_server_listen` becomes a pure scan over the parsed address entries,
  with each backend attempt's outcome (`DBusServerListenResult` plus the
  error it reports) supplied as data, since the listener backends are
  external collaborators;
* the lock/refcount protocol functions become explicit state-passing
  functions on a `DBusServer` record; every call-out to application code
  (watch/timeout list functions, data destructors, the vtable disconnect
  and finalize hooks) is recorded as an event carrying a snapshot of the
  lock state and the reference count at the moment of the call, so that
  the locking and reference-counting discipline can be stated about the
  emitted traces;
* assertion failures (`_dbus_assert`) are modelled as `Except.error`,
  while `_dbus_return_if_fail` checks are modelled as graceful returns,
  matching their behaviour in the C source.
-/

namespace DBusServerSpec

/-- A `DBusError`: a machine-readable name plus a human-readable message. -/
structure Err where
  name : String
  message : String
deriving DecidableEq, Repr

/-- Outcome of one listener-backend attempt on one address entry
(`DBusServerListenResult` together with the data the backend hands back:
the new server for `OK`, the reported error for `BAD_ADDRESS` and
`DID_NOT_CONNECT`).  Servers are abstracted to identifiers. -/
inductive AttemptResult where
  | ok (server : Nat)
  | badAddress (e : Err)
  | notHandled
  | didNotConnect (e : Err)
deriving DecidableEq, Repr

/-- One parsed address entry: its method name, and the outcome each
backend of the fixed `listen_funcs` table produces for it, in table
order. -/
structure Entry where
  method : String
  attempts : List AttemptResult
deriving DecidableEq, Repr

/-- `if (!dbus_error_is_set (&first_connect_error)) dbus_move_error (...)`:
keep the first did-not-connect error, drop later ones. -/
def keepFirst : Option Err → Option Err → Option Err
  | some e, _ => some e
  | none, b => b

/-- The inner loop of `dbus_server_listen` (`for j in listen_funcs`):
scan one entry's backend attempts, threading `first_connect_error` and
`handled_once`.  `Sum.inl (Sum.inl s)` is the `goto out` with a server
(result `OK`), `Sum.inl (Sum.inr e)` the `goto out` with the error set
(result `BAD_ADDRESS`); `Sum.inr` falls through to the next entry. -/
def listen_backends_loop : List AttemptResult → Option Err → Bool →
    Sum (Sum Nat Err) (Option Err × Bool)
  | [], first_connect_error, handled_once => Sum.inr (first_connect_error, handled_once)
  | AttemptResult.ok s :: _, _, _ => Sum.inl (Sum.inl s)
  | AttemptResult.badAddress e :: _, _, _ => Sum.inl (Sum.inr e)
  | AttemptResult.notHandled :: rest, first_connect_error, handled_once =>
      listen_backends_loop rest first_connect_error handled_once
  | AttemptResult.didNotConnect e :: rest, first_connect_error, _ =>
      listen_backends_loop rest (keepFirst first_connect_error (some e)) true

/-- The outer loop of `dbus_server_listen` (`for i in entries`). -/
def listen_entries_loop : List Entry → Option Err → Bool →
    Sum (Sum Nat Err) (Option Err × Bool)
  | [], first_connect_error, handled_once => Sum.inr (first_connect_error, handled_once)
  | entry :: rest, first_connect_error, handled_once =>
      match listen_backends_loop entry.attempts first_connect_error handled_once with
      | Sum.inl r => Sum.inl r
      | Sum.inr (fce2, handled2) => listen_entries_loop rest fce2 handled2

/-- `DBUS_ERROR_BAD_ADDRESS` from `dbus-protocol.h`. -/
def DBUS_ERROR_BAD_ADDRESS : String := "org.freedesktop.DBus.Error.BadAddress"

/-- The error set when no backend handled any entry and the entry list is
non-empty: `Unknown address type` naming the first entry's method. -/
def unknownAddressTypeError (method : String) : Err :=
  ⟨DBUS_ERROR_BAD_ADDRESS, "Unknown address type " ++ method⟩

/-- The error set when the parsed entry list is empty: `Empty address`. -/
def emptyAddressError (address : String) : Err :=
  ⟨DBUS_ERROR_BAD_ADDRESS, "Empty address " ++ address⟩

/-- Stand-in for the branch the C source rules out by assertion
(`_dbus_assert (... dbus_error_is_set (&first_connect_error) ...)`):
reached only if the scan fell through with `handled_once` set but no
first-connect error recorded, which `listen_handled_first_connect_set`
proves impossible from the initial state. -/
def assertNotReachedErr : Err :=
  ⟨"org.freedesktop.DBus.Error.Failed", "assertion failed in dbus_server_listen"⟩

/-- `dbus_server_listen`.  `parseResult` stands for the call to the
external `dbus_parse_address`: either the parser's bad-address error or
the ordered entry list. -/
def dbus_server_listen (address : String) (parseResult : Except Err (List Entry)) :
    Except Err Nat :=
  match parseResult with
  | Except.error e => Except.error e
  | Except.ok entries =>
    match listen_entries_loop entries none false with
    | Sum.inl (Sum.inl s) => Except.ok s
    | Sum.inl (Sum.inr e) => Except.error e
    | Sum.inr (first_connect_error, handled_once) =>
      if handled_once then
        match first_connect_error with
        | some e => Except.error e
        | none => Except.error assertNotReachedErr
      else
        match entries with
        | [] => Except.error (emptyAddressError address)
        | entry :: _ => Except.error (unknownAddressTypeError entry.method)

/-- Spec-level view: is an attempt outcome decisive, i.e. does it stop
the whole scan (`OK` or `BAD_ADDRESS`)? -/
def isDecisive : AttemptResult → Bool
  | AttemptResult.ok _ => true
  | AttemptResult.badAddress _ => true
  | AttemptResult.notHandled => false
  | AttemptResult.didNotConnect _ => false

/-- Spec-level view: the first decisive attempt of a scan sequence. -/
def firstDecisive (l : List AttemptResult) : Option AttemptResult :=
  l.find? isDecisive

/-- Spec-level view: the error of the first did-not-connect attempt. -/
def firstDidNotConnect : List AttemptResult → Option Err
  | [] => none
  | AttemptResult.didNotConnect e :: _ => some e
  | _ :: rest => firstDidNotConnect rest

/-- All backend attempts of an address in scan order: entries in order,
and within each entry the backends in fixed table order. -/
def flatAttempts (entries : List Entry) : List AttemptResult :=
  (entries.map Entry.attempts).flatten

/-- Snapshot of the server taken at the moment a call-out happens. -/
structure Snapshot where
  lockHeld : Bool
  refcount : Nat
deriving DecidableEq, Repr

/-- Observable call-outs of the module: invocations of
application-supplied code (watch/timeout list functions, free-data
functions, slot destructors), of the vtable `disconnect` hook and of the
vtable `finalize` hook.  Each records the lock state and reference count
at the moment of the call. -/
inductive Event where
  | appCallback (which : String) (snap : Snapshot)
  | vtableDisconnect (snap : Snapshot)
  | finalize (snap : Snapshot)
deriving DecidableEq, Repr

/-- The `DBusServer` base-class fields used by the excerpted module.
Watch and timeout lists, functions and data pointers are abstracted to
identifiers; `none` models a `NULL` pointer. -/
structure DBusServer where
  refcount : Nat
  disconnected : Bool
  lockHeld : Bool
  watches : Option Nat
  timeouts : Option Nat
  address : String
  guidHex : String
  authMechanisms : Option (List String)
  newConnectionFunction : Option Nat
  newConnectionData : Nat
  newConnectionFreeDataFunction : Option Nat
  slotList : List (Nat × Nat × Option Nat)
deriving DecidableEq, Repr

/-- Result of running one modelled operation: the post state, the trace
of call-out events in order, and the C return value. -/
structure OpResult (α : Type) where
  state : DBusServer
  events : List Event
  ret : α
deriving Repr

/-- `SERVER_LOCK`. -/
def SERVER_LOCK (s : DBusServer) : DBusServer := { s with lockHeld := true }

/-- `SERVER_UNLOCK`. -/
def SERVER_UNLOCK (s : DBusServer) : DBusServer := { s with lockHeld := false }

/-- The snapshot of a state, as recorded in events. -/
def snap (s : DBusServer) : Snapshot := ⟨s.lockHeld, s.refcount⟩

/-- `_dbus_server_ref_unlocked`: increments the count with the lock
already held (its `_dbus_assert (refcount > 0)` is carried as a
hypothesis of the theorems that use states reaching this call). -/
def _dbus_server_ref_unlocked (s : DBusServer) : DBusServer :=
  { s with refcount := s.refcount + 1 }

/-- `_dbus_server_unref_unlocked`: decrement with the lock held; on the
last reference, assert `disconnected`, release the lock, and call the
vtable finalize hook.  `_dbus_assert` failures are `Except.error`. -/
def _dbus_server_unref_unlocked (s : DBusServer) : Except String (OpResult Unit) :=
  if s.refcount = 0 then Except.error "assert: server->refcount.value > 0"
  else
    let s1 : DBusServer := { s with refcount := s.refcount - 1 }
    if s1.refcount = 0 then
      if s1.disconnected then
        let s2 := SERVER_UNLOCK s1
        Except.ok ⟨s2, [Event.finalize (snap s2)], ()⟩
      else Except.error "assert: server->disconnected"
    else Except.ok ⟨s1, [], ()⟩

/-- `dbus_server_unref`: `_dbus_return_if_fail` on a dead refcount is a
graceful no-op return; otherwise take the lock, decrement, release the
lock, and on the last reference assert `disconnected` and call the
vtable finalize hook with the lock not held. -/
def dbus_server_unref (s : DBusServer) : Except String (OpResult Unit) :=
  if s.refcount = 0 then Except.ok ⟨s, [], ()⟩
  else
    let s1 := SERVER_LOCK s
    let s2 : DBusServer := { s1 with refcount := s1.refcount - 1 }
    let s3 := SERVER_UNLOCK s2
    if s3.refcount = 0 then
      if s3.disconnected then Except.ok ⟨s3, [Event.finalize (snap s3)], ()⟩
      else Except.error "assert: server->disconnected"
    else Except.ok ⟨s3, [], ()⟩

/-- `dbus_server_disconnect`: lock, take a temporary extra reference, on
the first call flip `disconnected` and invoke the vtable disconnect hook
under the lock, unlock, drop the extra reference. -/
def dbus_server_disconnect (s : DBusServer) : Except String (OpResult Unit) :=
  if s.refcount = 0 then Except.ok ⟨s, [], ()⟩
  else
    let s1 := SERVER_LOCK s
    let s2 := _dbus_server_ref_unlocked s1
    if ¬ s2.disconnected then
      let s3 : DBusServer := { s2 with disconnected := true }
      let ev := Event.vtableDisconnect (snap s3)
      let s4 := SERVER_UNLOCK s3
      match dbus_server_unref s4 with
      | Except.error e => Except.error e
      | Except.ok r => Except.ok ⟨r.state, ev :: r.events, ()⟩
    else
      let s4 := SERVER_UNLOCK s2
      match dbus_server_unref s4 with
      | Except.error e => Except.error e
      | Except.ok r => Except.ok ⟨r.state, r.events, ()⟩

/-- `dbus_server_get_is_connected`: lock-protected snapshot of the
negation of `disconnected`. -/
def dbus_server_get_is_connected (s : DBusServer) : OpResult Bool :=
  let s1 := SERVER_LOCK s
  let retval := ¬ s1.disconnected
  let s2 := SERVER_UNLOCK s1
  ⟨s2, [], retval⟩

/-- `_dbus_strdup`: a fresh copy of the string, or `NULL` (`none`) when
allocation fails (`allocOk` supplies the allocator's verdict). -/
def _dbus_strdup (str : String) (allocOk : Bool) : Option String :=
  if allocOk then some str else none

/-- `dbus_server_get_address`: lock, duplicate the stored address,
unlock, return the copy (or `NULL` on allocation failure). -/
def dbus_server_get_address (s : DBusServer) (allocOk : Bool) :
    OpResult (Option String) :=
  let s1 := SERVER_LOCK s
  let retval := _dbus_strdup s1.address allocOk
  let s2 := SERVER_UNLOCK s1
  ⟨s2, [], retval⟩

/-- Which of the three watch/timeout list functions
`protected_change_watch` / `protected_change_timeout` is asked to call
(`add_function`, `remove_function` or `toggle_function`). -/
inductive ChangeMode where
  | add
  | remove
  | toggle
deriving DecidableEq, Repr

/-- The C return value of the protected-change pattern: the add
function's result for `add` (supplied by `addResult`, since the list
functions are external), `TRUE` for `remove` and `toggle`. -/
def protectedRet (mode : ChangeMode) (addResult : Bool) : Bool :=
  match mode with
  | ChangeMode.add => addResult
  | ChangeMode.remove => true
  | ChangeMode.toggle => true

/-- `protected_change_watch`: called with the lock held.  If the watch
list is already detached (`NULL`), return `FALSE` at once.  Otherwise
detach it, take an extra reference, unlock, call the watch list function
(which runs application watch handlers), relock, reattach the same list,
drop the extra reference. -/
def protected_change_watch (s : DBusServer) (mode : ChangeMode) (addResult : Bool) :
    Except String (OpResult Bool) :=
  match s.watches with
  | none => Except.ok ⟨s, [], false⟩
  | some w =>
    let s1 : DBusServer := { s with watches := none }
    let s2 := _dbus_server_ref_unlocked s1
    let s3 := SERVER_UNLOCK s2
    let ev := Event.appCallback "watch_list_function" (snap s3)
    let retval := protectedRet mode addResult
    let s4 := SERVER_LOCK s3
    let s5 : DBusServer := { s4 with watches := some w }
    match _dbus_server_unref_unlocked s5 with
    | Except.error e => Except.error e
    | Except.ok r => Except.ok ⟨r.state, ev :: r.events, retval⟩

/-- `protected_change_timeout`: identical pattern on the timeout list. -/
def protected_change_timeout (s : DBusServer) (mode : ChangeMode) (addResult : Bool) :
    Except String (OpResult Bool) :=
  match s.timeouts with
  | none => Except.ok ⟨s, [], false⟩
  | some t =>
    let s1 : DBusServer := { s with timeouts := none }
    let s2 := _dbus_server_ref_unlocked s1
    let s3 := SERVER_UNLOCK s2
    let ev := Event.appCallback "timeout_list_function" (snap s3)
    let retval := protectedRet mode addResult
    let s4 := SERVER_LOCK s3
    let s5 : DBusServer := { s4 with timeouts := some t }
    match _dbus_server_unref_unlocked s5 with
    | Except.error e => Except.error e
    | Except.ok r => Except.ok ⟨r.state, ev :: r.events, retval⟩

/-- `dbus_server_set_new_connection_function`: under the lock swap the
(function, data, free-data-function) triple, unlock, then call the
previous free-data function, if any, strictly after the unlock. -/
def dbus_server_set_new_connection_function (s : DBusServer)
    (fn : Option Nat) (data : Nat) (freeDataFunction : Option Nat) : OpResult Unit :=
  let s1 := SERVER_LOCK s
  let oldFreeFunction := s1.newConnectionFreeDataFunction
  let s2 : DBusServer :=
    { s1 with newConnectionFunction := fn, newConnectionData := data,
              newConnectionFreeDataFunction := freeDataFunction }
  let s3 := SERVER_UNLOCK s2
  match oldFreeFunction with
  | some _ => ⟨s3, [Event.appCallback "new_connection_free_data_function" (snap s3)], ()⟩
  | none => ⟨s3, [], ()⟩

/-- `dbus_server_set_watch_functions`: lock, detach the watch list; if
it was already detached, warn, return `FALSE`; otherwise unlock, call
`_dbus_watch_list_set_functions` (which replays buffered watches through
the application's new functions, `setFunctionsResult` supplying its
verdict), relock; in both cases store the detached value back and
unlock. -/
def dbus_server_set_watch_functions (s : DBusServer) (setFunctionsResult : Bool) :
    OpResult Bool :=
  let s1 := SERVER_LOCK s
  let watches := s1.watches
  let s2 : DBusServer := { s1 with watches := none }
  match watches with
  | some w =>
    let s3 := SERVER_UNLOCK s2
    let ev := Event.appCallback "watch_list_set_functions" (snap s3)
    let s4 := SERVER_LOCK s3
    let s5 : DBusServer := { s4 with watches := some w }
    let s6 := SERVER_UNLOCK s5
    ⟨s6, [ev], setFunctionsResult⟩
  | none =>
    let s5 : DBusServer := { s2 with watches := none }
    let s6 := SERVER_UNLOCK s5
    ⟨s6, [], false⟩

/-- `dbus_server_set_timeout_functions`: identical pattern on the
timeout list. -/
def dbus_server_set_timeout_functions (s : DBusServer) (setFunctionsResult : Bool) :
    OpResult Bool :=
  let s1 := SERVER_LOCK s
  let timeouts := s1.timeouts
  let s2 : DBusServer := { s1 with timeouts := none }
  match timeouts with
  | some t =>
    let s3 := SERVER_UNLOCK s2
    let ev := Event.appCallback "timeout_list_set_functions" (snap s3)
    let s4 := SERVER_LOCK s3
    let s5 : DBusServer := { s4 with timeouts := some t }
    let s6 := SERVER_UNLOCK s5
    ⟨s6, [ev], setFunctionsResult⟩
  | none =>
    let s5 : DBusServer := { s2 with timeouts := none }
    let s6 := SERVER_UNLOCK s5
    ⟨s6, [], false⟩

/-- `dbus_server_set_auth_mechanisms`: lock; for a non-`NULL` mechanism
array duplicate it (`allocOk` supplies the allocator's verdict) — note
the C source returns `FALSE` directly from under the lock when the copy
fails; otherwise free the old array, install the copy, unlock, return
`TRUE`. -/
def dbus_server_set_auth_mechanisms (s : DBusServer)
    (mechanisms : Option (List String)) (allocOk : Bool) : OpResult Bool :=
  let s1 := SERVER_LOCK s
  match mechanisms with
  | some ms =>
    if allocOk then
      let s2 : DBusServer := { s1 with authMechanisms := some ms }
      let s3 := SERVER_UNLOCK s2
      ⟨s3, [], true⟩
    else
      ⟨s1, [], false⟩
  | none =>
    let s2 : DBusServer := { s1 with authMechanisms := none }
    let s3 := SERVER_UNLOCK s2
    ⟨s3, [], true⟩

/-- Modelled from the spec: `_dbus_data_slot_list_set` lives in
`dbus-dataslot.c`, outside the excerpt.  Per the spec it stores a
(data, destructor) pair keyed by slot, atomically swapping out and
returning the previous pair, and fails only on allocation failure
(`allocOk`), leaving prior data untouched.  Returns
(retval, new list, old data, old free function). -/
def _dbus_data_slot_list_set (slotList : List (Nat × Nat × Option Nat))
    (slot data : Nat) (freeDataFunc : Option Nat) (allocOk : Bool) :
    Bool × List (Nat × Nat × Option Nat) × Nat × Option Nat :=
  if allocOk then
    match slotList.find? (fun p => p.1 == slot) with
    | some (_, oldData, oldFree) =>
        (true, (slot, data, freeDataFunc) :: slotList.eraseP (fun p => p.1 == slot),
         oldData, oldFree)
    | none => (true, (slot, data, freeDataFunc) :: slotList, 0, none)
  else (false, slotList, 0, none)

/-- `dbus_server_set_data`: lock, swap the slot's (data, destructor)
pair, unlock, and only then — outside the server lock — call the old
free function if the swap succeeded and one was stored. -/
def dbus_server_set_data (s : DBusServer) (slot data : Nat)
    (freeDataFunc : Option Nat) (allocOk : Bool) : OpResult Bool :=
  let s1 := SERVER_LOCK s
  let r := _dbus_data_slot_list_set s1.slotList slot data freeDataFunc allocOk
  let s2 : DBusServer := { s1 with slotList := r.2.1 }
  let s3 := SERVER_UNLOCK s2
  if r.1 then
    match r.2.2.2 with
    | some _ => ⟨s3, [Event.appCallback "old_free_func" (snap s3)], true⟩
    | none => ⟨s3, [], true⟩
  else ⟨s3, [], false⟩

/-- `copy_address_with_guid_appended`: the input address with `,guid=`
and the hex-encoded identifier appended; `NULL` when any of its
allocations fails (collapsed into one `allocOk` verdict). -/
def copy_address_with_guid_appended (address guidHex : String) (allocOk : Bool) :
    Option String :=
  if allocOk then some (address ++ ",guid=" ++ guidHex) else none

/-- The allocator verdicts for each fallible step of
`_dbus_server_init_base`, in source order. -/
structure InitAlloc where
  guidHexInit : Bool
  uuidEncode : Bool
  addressCopy : Bool
  mutexNew : Bool
  watchListNew : Bool
  timeoutListNew : Bool
deriving DecidableEq, Repr

/-- `_dbus_server_init_base`: refcount 1, generate the identifier
(`guidHex` stands for the external `_dbus_generate_uuid` +
`_dbus_uuid_encode` result), build the stored address by appending the
guid, create the mutex and fresh watch/timeout lists, and an empty slot
list; any failed step unwinds and reports failure (`none`). -/
def _dbus_server_init_base (address guidHex : String) (a : InitAlloc) :
    Option DBusServer :=
  if ¬ a.guidHexInit then none
  else if ¬ a.uuidEncode then none
  else
    match copy_address_with_guid_appended address guidHex a.addressCopy with
    | none => none
    | some addr =>
      if ¬ a.mutexNew then none
      else if ¬ a.watchListNew then none
      else if ¬ a.timeoutListNew then none
      else some
        { refcount := 1, disconnected := false, lockHeld := false,
          watches := some 0, timeouts := some 0,
          address := addr, guidHex := guidHex,
          authMechanisms := none,
          newConnectionFunction := none, newConnectionData := 0,
          newConnectionFreeDataFunction := none,
          slotList := [] }

/-- An event is compatible with the rule that the server mutex is never
held while application code runs: any `appCallback` carries an unlocked
snapshot. -/
def callbackUnlocked : Event → Bool
  | Event.appCallback _ sn => ! sn.lockHeld
  | Event.vtableDisconnect _ => true
  | Event.finalize _ => true

/-- An event is compatible with the rule that an extra reference is held
across every call-out window: any `appCallback` sees a reference count
strictly above the count the operation started from. -/
def extraRefAtCallback (initRef : Nat) : Event → Bool
  | Event.appCallback _ sn => decide (initRef < sn.refcount)
  | Event.vtableDisconnect _ => true
  | Event.finalize _ => true

/-- An event's callback runs with the reference count exactly equal to
the count the operation started from (i.e. no extra reference taken). -/
def sameRefAtCallback (initRef : Nat) : Event → Bool
  | Event.appCallback _ sn => decide (sn.refcount = initRef)
  | Event.vtableDisconnect _ => true
  | Event.finalize _ => true

/-- A generic well-formed server state used to instantiate theorems on
concrete inputs. -/
def sampleServer : DBusServer :=
  { refcount := 1, disconnected := false, lockHeld := false,
    watches := some 1, timeouts := some 2,
    address := "tcp:host=localhost,port=1234,guid=00af",
    guidHex := "00af",
    authMechanisms := none,
    newConnectionFunction := some 4, newConnectionData := 5,
    newConnectionFreeDataFunction := some 6,
    slotList := [(0, 7, some 8)] }

/-- `sampleServer` with the lock held (as seen by `protected_change_*`,
which are entered with the lock already held). -/
def sampleServerLocked : DBusServer := { sampleServer with lockHeld := true }

/-- `sampleServer` with both registries detached, modelling the state a
reentrant caller observes during a call-out window. -/
def sampleServerDetached : DBusServer :=
  { sampleServer with watches := none, timeouts := none }

/-- A concrete address-in-use error used to instantiate the listen
theorems. -/
def addrInUseErr : Err :=
  ⟨"org.freedesktop.DBus.Error.AddressInUse", "Address already in use"⟩

/-- A second concrete did-not-connect error, distinct from
`addrInUseErr`. -/
def permDeniedErr : Err :=
  ⟨"org.freedesktop.DBus.Error.AccessDenied", "Permission denied"⟩

/-- Concrete entry list: the first entry's second backend fails to bind,
the second entry's first backend succeeds. -/
def okEntries : List Entry :=
  [⟨"tcp", [AttemptResult.notHandled, AttemptResult.didNotConnect addrInUseErr]⟩,
   ⟨"unix", [AttemptResult.ok 7, AttemptResult.notHandled]⟩]

/-- Concrete entry list on which every backend attempt fails to bind:
the reported error must be the first one, `addrInUseErr`. -/
def dncEntries : List Entry :=
  [⟨"tcp", [AttemptResult.notHandled, AttemptResult.didNotConnect addrInUseErr]⟩,
   ⟨"unix", [AttemptResult.didNotConnect permDeniedErr]⟩]

/-- Concrete entry list no backend recognizes. -/
def bogusEntries : List Entry :=
  [⟨"bogus", [AttemptResult.notHandled, AttemptResult.notHandled]⟩]

/-- `sampleServer` after `disconnect`: the only state from which the
last reference may legally be dropped. -/
def finalServer : DBusServer := { sampleServer with disconnected := true }

/-- The result `protected_change_watch` produces on `sampleServerLocked`
in add mode: state fully restored, one call-out with the lock released
and the reference count raised to 2. -/
def protWatchResult : OpResult Bool :=
  ⟨sampleServerLocked, [Event.appCallback "watch_list_function" ⟨false, 2⟩], true⟩

/-- The result `protected_change_timeout` produces on
`sampleServerLocked` in add mode. -/
def protTimeoutResult : OpResult Bool :=
  ⟨sampleServerLocked, [Event.appCallback "timeout_list_function" ⟨false, 2⟩], true⟩

/-- All allocations of `_dbus_server_init_base` succeed. -/
def initAllOk : InitAlloc := ⟨true, true, true, true, true, true⟩

/-- A concrete freshly initialized server. -/
def initServer : DBusServer :=
  (_dbus_server_init_base "unix:path=/tmp/test" "0123456789abcdef0123456789abcdef"
    initAllOk).getD sampleServer

theorem keepFirst_none (a : Option Err) : keepFirst a none = a := by
  cases a <;> rfl

theorem keepFirst_keepFirst_some (a : Option Err) (e : Err) (c : Option Err) :
    keepFirst (keepFirst a (some e)) c = keepFirst a (some e) := by
  cases a <;> rfl

theorem listen_backends_loop_append (l1 l2 : List AttemptResult)
    (fce : Option Err) (h : Bool) :
    listen_backends_loop (l1 ++ l2) fce h =
      match listen_backends_loop l1 fce h with
      | Sum.inl r => Sum.inl r
      | Sum.inr (fce2, h2) => listen_backends_loop l2 fce2 h2 := by
  induction l1 generalizing fce h with
  | nil => rfl
  | cons a rest ih => cases a <;> simp [listen_backends_loop, ih]

theorem listen_entries_loop_eq_flat (entries : List Entry)
    (fce : Option Err) (h : Bool) :
    listen_entries_loop entries fce h =
      listen_backends_loop (flatAttempts entries) fce h := by
  induction entries generalizing fce h with
  | nil => rfl
  | cons entry rest ih =>
    have hflat : flatAttempts (entry :: rest) = entry.attempts ++ flatAttempts rest := rfl
    rw [hflat, listen_backends_loop_append]
    cases hb : listen_backends_loop entry.attempts fce h with
    | inl r => simp [listen_entries_loop, hb]
    | inr p => cases p with
      | mk fce2 h2 => simp [listen_entries_loop, hb, ih]

theorem listen_backends_loop_decisive_ok (l : List AttemptResult) (s : Nat)
    (hd : firstDecisive l = some (AttemptResult.ok s)) :
    ∀ fce h, listen_backends_loop l fce h = Sum.inl (Sum.inl s) := by
  induction l with
  | nil => simp [firstDecisive] at hd
  | cons a rest ih =>
    intro fce h
    cases a with
    | ok s2 =>
      rw [firstDecisive, List.find?_cons_of_pos _ (by simp [isDecisive])] at hd
      cases hd
      rfl
    | badAddress e =>
      rw [firstDecisive, List.find?_cons_of_pos _ (by simp [isDecisive])] at hd
      cases hd
    | notHandled =>
      rw [firstDecisive, List.find?_cons_of_neg _ (by simp [isDecisive])] at hd
      exact ih hd fce h
    | didNotConnect e =>
      rw [firstDecisive, List.find?_cons_of_neg _ (by simp [isDecisive])] at hd
      exact ih hd _ _

theorem listen_backends_loop_decisive_bad (l : List AttemptResult) (e : Err)
    (hd : firstDecisive l = some (AttemptResult.badAddress e)) :
    ∀ fce h, listen_backends_loop l fce h = Sum.inl (Sum.inr e) := by
  induction l with
  | nil => simp [firstDecisive] at hd
  | cons a rest ih =>
    intro fce h
    cases a with
    | ok s2 =>
      rw [firstDecisive, List.find?_cons_of_pos _ (by simp [isDecisive])] at hd
      cases hd
    | badAddress e2 =>
      rw [firstDecisive, List.find?_cons_of_pos _ (by simp [isDecisive])] at hd
      cases hd
      rfl
    | notHandled =>
      rw [firstDecisive, List.find?_cons_of_neg _ (by simp [isDecisive])] at hd
      exact ih hd fce h
    | didNotConnect e2 =>
      rw [firstDecisive, List.find?_cons_of_neg _ (by simp [isDecisive])] at hd
      exact ih hd _ _

theorem listen_backends_loop_no_decisive (l : List AttemptResult)
    (hd : firstDecisive l = none) :
    ∀ fce h, listen_backends_loop l fce h =
      Sum.inr (keepFirst fce (firstDidNotConnect l),
               h || (firstDidNotConnect l).isSome) := by
  induction l with
  | nil =>
    intro fce h
    simp [listen_backends_loop, firstDidNotConnect, keepFirst_none]
  | cons a rest ih =>
    intro fce h
    cases a with
    | ok s2 =>
      rw [firstDecisive, List.find?_cons_of_pos _ (by simp [isDecisive])] at hd
      cases hd
    | badAddress e2 =>
      rw [firstDecisive, List.find?_cons_of_pos _ (by simp [isDecisive])] at hd
      cases hd
    | notHandled =>
      rw [firstDecisive, List.find?_cons_of_neg _ (by simp [isDecisive])] at hd
      simpa [listen_backends_loop, firstDidNotConnect] using ih hd fce h
    | didNotConnect e2 =>
      rw [firstDecisive, List.find?_cons_of_neg _ (by simp [isDecisive])] at hd
      rw [show listen_backends_loop (AttemptResult.didNotConnect e2 :: rest) fce h =
            listen_backends_loop rest (keepFirst fce (some e2)) true from rfl,
          ih hd _ _]
      simp [firstDidNotConnect, keepFirst_keepFirst_some]

/-- C1: `dbus_server_listen` scans entries in order and, within each
entry, backends in fixed table order (the flattened attempt sequence);
the first attempt returning `OK` ends the scan with that server, the
first attempt returning `BAD_ADDRESS` ends the scan surfacing that
error, not-handled attempts are skipped, and when the scan ends with
neither, the surfaced error is the first did-not-connect error, the only
one retained. -/
theorem listen_first_outcome_policy (address : String) (entries : List Entry) :
    (∀ s, firstDecisive (flatAttempts entries) = some (AttemptResult.ok s) →
        dbus_server_listen address (Except.ok entries) = Except.ok s) ∧
    (∀ e, firstDecisive (flatAttempts entries) = some (AttemptResult.badAddress e) →
        dbus_server_listen address (Except.ok entries) = Except.error e) ∧
    (∀ e, firstDecisive (flatAttempts entries) = none →
        firstDidNotConnect (flatAttempts entries) = some e →
        dbus_server_listen address (Except.ok entries) = Except.error e) := by
  refine ⟨fun s hd => ?_, fun e hd => ?_, fun e hd hdnc => ?_⟩
  · simp only [dbus_server_listen, listen_entries_loop_eq_flat,
        listen_backends_loop_decisive_ok _ s hd]
  · simp only [dbus_server_listen, listen_entries_loop_eq_flat,
        listen_backends_loop_decisive_bad _ e hd]
  · simp only [dbus_server_listen, listen_entries_loop_eq_flat,
        listen_backends_loop_no_decisive _ hd]
    simp [hdnc, keepFirst]

/-- C1 witness: on `okEntries` the first decisive attempt is `OK` with
server 7, and listen yields it; on `dncEntries` every attempt fails to
connect and the error surfaced is the first one. -/
theorem listen_first_outcome_policy_witness :
    dbus_server_listen "tcp:port=1;unix:path=x" (Except.ok okEntries) = Except.ok 7 ∧
    dbus_server_listen "tcp:port=1;unix:path=x" (Except.ok dncEntries) =
      Except.error addrInUseErr :=
  ⟨(listen_first_outcome_policy "tcp:port=1;unix:path=x" okEntries).1 7 (by rfl),
   (listen_first_outcome_policy "tcp:port=1;unix:path=x" dncEntries).2.2 addrInUseErr
     (by rfl) (by rfl)⟩

theorem firstDecisive_of_all_notHandled (l : List AttemptResult)
    (h : ∀ a ∈ l, a = AttemptResult.notHandled) : firstDecisive l = none := by
  induction l with
  | nil => rfl
  | cons a rest ih =>
    have ha := h a (List.mem_cons_self a rest)
    subst ha
    rw [firstDecisive, List.find?_cons_of_neg _ (by simp [isDecisive])]
    exact ih fun b hb => h b (List.mem_cons_of_mem _ hb)

theorem firstDidNotConnect_of_all_notHandled (l : List AttemptResult)
    (h : ∀ a ∈ l, a = AttemptResult.notHandled) : firstDidNotConnect l = none := by
  induction l with
  | nil => rfl
  | cons a rest ih =>
    have ha := h a (List.mem_cons_self a rest)
    subst ha
    exact ih fun b hb => h b (List.mem_cons_of_mem _ hb)

/-- C7: when every backend attempt of the scan returned not-handled,
`dbus_server_listen` reports the unknown-address-type error naming the
first entry's method for a non-empty entry list, and the empty-address
error for an empty one; a syntactically invalid address surfaces the
parser's error directly. -/
theorem listen_unhandled_error_selection (address : String) (entries : List Entry)
    (e : Err) :
    ((∀ a ∈ flatAttempts entries, a = AttemptResult.notHandled) →
      (entries = [] →
        dbus_server_listen address (Except.ok entries) =
          Except.error (emptyAddressError address)) ∧
      (∀ entry rest, entries = entry :: rest →
        dbus_server_listen address (Except.ok entries) =
          Except.error (unknownAddressTypeError entry.method))) ∧
    dbus_server_listen address (Except.error e) = Except.error e := by
  refine ⟨fun hall => ⟨fun hnil => ?_, fun entry rest hcons => ?_⟩, rfl⟩
  · subst hnil
    rfl
  · simp only [dbus_server_listen, listen_entries_loop_eq_flat,
        listen_backends_loop_no_decisive _ (firstDecisive_of_all_notHandled _ hall),
        firstDidNotConnect_of_all_notHandled _ hall]
    subst hcons
    simp [keepFirst]

/-- C7 witness: on `bogusEntries` listen reports the unknown-address
error naming method `bogus`; on an empty entry list it reports the
empty-address error; a parse error is surfaced directly. -/
theorem listen_unhandled_error_selection_witness :
    dbus_server_listen "bogus:foo=bar" (Except.ok bogusEntries) =
      Except.error (unknownAddressTypeError "bogus") ∧
    dbus_server_listen "" (Except.ok []) = Except.error (emptyAddressError "") ∧
    dbus_server_listen "banana" (Except.error permDeniedErr) =
      Except.error permDeniedErr :=
  ⟨((listen_unhandled_error_selection "bogus:foo=bar" bogusEntries permDeniedErr).1
      (by decide)).2 ⟨"bogus", [AttemptResult.notHandled, AttemptResult.notHandled]⟩ []
      (by rfl),
   ((listen_unhandled_error_selection "" [] permDeniedErr).1 (by decide)).1 rfl,
   (listen_unhandled_error_selection "banana" [] permDeniedErr).2⟩

theorem protected_change_watch_none (s : DBusServer) (mode : ChangeMode) (ar : Bool)
    (hw : s.watches = none) :
    protected_change_watch s mode ar = Except.ok ⟨s, [], false⟩ := by
  rw [protected_change_watch, hw]

theorem protected_change_timeout_none (s : DBusServer) (mode : ChangeMode) (ar : Bool)
    (ht : s.timeouts = none) :
    protected_change_timeout s mode ar = Except.ok ⟨s, [], false⟩ := by
  rw [protected_change_timeout, ht]

theorem protected_change_watch_some (s : DBusServer) (mode : ChangeMode) (ar : Bool)
    (w : Nat) (hw : s.watches = some w) (hrc : s.refcount ≠ 0) :
    protected_change_watch s mode ar =
      Except.ok ⟨{ s with lockHeld := true },
                 [Event.appCallback "watch_list_function" ⟨false, s.refcount + 1⟩],
                 protectedRet mode ar⟩ := by
  rw [protected_change_watch, hw]
  simp [_dbus_server_ref_unlocked, _dbus_server_unref_unlocked,
        SERVER_LOCK, SERVER_UNLOCK, snap, hrc, ← hw]

theorem protected_change_timeout_some (s : DBusServer) (mode : ChangeMode) (ar : Bool)
    (t : Nat) (ht : s.timeouts = some t) (hrc : s.refcount ≠ 0) :
    protected_change_timeout s mode ar =
      Except.ok ⟨{ s with lockHeld := true },
                 [Event.appCallback "timeout_list_function" ⟨false, s.refcount + 1⟩],
                 protectedRet mode ar⟩ := by
  rw [protected_change_timeout, ht]
  simp [_dbus_server_ref_unlocked, _dbus_server_unref_unlocked,
        SERVER_LOCK, SERVER_UNLOCK, snap, hrc, ← ht]

theorem protected_change_watch_ok_shape (s : DBusServer) (mode : ChangeMode) (ar : Bool)
    (r : OpResult Bool) (hr : protected_change_watch s mode ar = Except.ok r) :
    r.events.all callbackUnlocked = true ∧
    r.state.address = s.address ∧ r.state.guidHex = s.guidHex := by
  cases hw : s.watches with
  | none =>
    rw [protected_change_watch_none s mode ar hw] at hr
    injection hr with hr
    subst hr
    exact ⟨rfl, rfl, rfl⟩
  | some w =>
    rw [protected_change_watch, hw] at hr
    by_cases hrc : s.refcount = 0
    · simp only [_dbus_server_ref_unlocked, _dbus_server_unref_unlocked,
          SERVER_LOCK, SERVER_UNLOCK, snap, hrc] at hr
      by_cases hd : s.disconnected
      · simp only [hd] at hr
        simp only [reduceIte] at hr
        injection hr with hr
        subst hr
        simp [callbackUnlocked]
      · simp only [hd] at hr
        simp only [reduceIte] at hr
        cases hr
    · simp only [_dbus_server_ref_unlocked, _dbus_server_unref_unlocked,
          SERVER_LOCK, SERVER_UNLOCK, snap, hrc] at hr
      simp only [Nat.add_sub_cancel, hrc, reduceIte] at hr
      injection hr with hr
      subst hr
      simp [callbackUnlocked]

theorem protected_change_timeout_ok_shape (s : DBusServer) (mode : ChangeMode) (ar : Bool)
    (r : OpResult Bool) (hr : protected_change_timeout s mode ar = Except.ok r) :
    r.events.all callbackUnlocked = true ∧
    r.state.address = s.address ∧ r.state.guidHex = s.guidHex := by
  cases ht : s.timeouts with
  | none =>
    rw [protected_change_timeout_none s mode ar ht] at hr
    injection hr with hr
    subst hr
    exact ⟨rfl, rfl, rfl⟩
  | some t =>
    rw [protected_change_timeout, ht] at hr
    by_cases hrc : s.refcount = 0
    · simp only [_dbus_server_ref_unlocked, _dbus_server_unref_unlocked,
          SERVER_LOCK, SERVER_UNLOCK, snap, hrc] at hr
      by_cases hd : s.disconnected
      · simp only [hd] at hr
        simp only [reduceIte] at hr
        injection hr with hr
        subst hr
        simp [callbackUnlocked]
      · simp only [hd] at hr
        simp only [reduceIte] at hr
        cases hr
    · simp only [_dbus_server_ref_unlocked, _dbus_server_unref_unlocked,
          SERVER_LOCK, SERVER_UNLOCK, snap, hrc] at hr
      simp only [Nat.add_sub_cancel, hrc, reduceIte] at hr
      injection hr with hr
      subst hr
      simp [callbackUnlocked]

theorem set_watch_functions_none (s : DBusServer) (sfr : Bool)
    (hw : s.watches = none) (hl : s.lockHeld = false) :
    dbus_server_set_watch_functions s sfr = ⟨s, [], false⟩ := by
  cases s
  simp_all [dbus_server_set_watch_functions, SERVER_LOCK, SERVER_UNLOCK]

theorem set_timeout_functions_none (s : DBusServer) (tfr : Bool)
    (ht : s.timeouts = none) (hl : s.lockHeld = false) :
    dbus_server_set_timeout_functions s tfr = ⟨s, [], false⟩ := by
  cases s
  simp_all [dbus_server_set_timeout_functions, SERVER_LOCK, SERVER_UNLOCK]

theorem set_watch_functions_some (s : DBusServer) (sfr : Bool) (w : Nat)
    (hw : s.watches = some w) (hl : s.lockHeld = false) :
    dbus_server_set_watch_functions s sfr =
      ⟨s, [Event.appCallback "watch_list_set_functions" ⟨false, s.refcount⟩], sfr⟩ := by
  cases s
  simp_all [dbus_server_set_watch_functions, SERVER_LOCK, SERVER_UNLOCK, snap]

theorem set_timeout_functions_some (s : DBusServer) (tfr : Bool) (t : Nat)
    (ht : s.timeouts = some t) (hl : s.lockHeld = false) :
    dbus_server_set_timeout_functions s tfr =
      ⟨s, [Event.appCallback "timeout_list_set_functions" ⟨false, s.refcount⟩], tfr⟩ := by
  cases s
  simp_all [dbus_server_set_timeout_functions, SERVER_LOCK, SERVER_UNLOCK, snap]

/-- C3: dropping the last reference through either `dbus_server_unref`
or `_dbus_server_unref_unlocked` requires `disconnected` to already be
true — otherwise it is an asserted programming error — and invokes the
vtable finalize hook exactly once, with the server lock not held during
the call. -/
theorem last_unref_requires_disconnected_finalize_once (s : DBusServer)
    (h1 : s.refcount = 1) :
    (s.disconnected = true → s.lockHeld = false →
        dbus_server_unref s =
          Except.ok ⟨{ s with refcount := 0 }, [Event.finalize ⟨false, 0⟩], ()⟩) ∧
    (s.disconnected = false →
        dbus_server_unref s = Except.error "assert: server->disconnected") ∧
    (s.disconnected = true →
        _dbus_server_unref_unlocked { s with lockHeld := true } =
          Except.ok ⟨{ s with refcount := 0, lockHeld := false },
                     [Event.finalize ⟨false, 0⟩], ()⟩) ∧
    (s.disconnected = false →
        _dbus_server_unref_unlocked { s with lockHeld := true } =
          Except.error "assert: server->disconnected") := by
  refine ⟨fun hd hl => ?_, fun hd => ?_, fun hd => ?_, fun hd => ?_⟩ <;>
    cases s <;>
    simp_all [dbus_server_unref, _dbus_server_unref_unlocked,
      SERVER_LOCK, SERVER_UNLOCK, snap]

/-- C3 witness: on a disconnected server with one reference, unref
finalizes once with the lock released; on a still-connected one the
assert fires. -/
theorem last_unref_requires_disconnected_finalize_once_witness :
    dbus_server_unref finalServer =
      Except.ok ⟨{ finalServer with refcount := 0 }, [Event.finalize ⟨false, 0⟩], ()⟩ ∧
    dbus_server_unref sampleServer = Except.error "assert: server->disconnected" :=
  ⟨(last_unref_requires_disconnected_finalize_once finalServer rfl).1 rfl rfl,
   (last_unref_requires_disconnected_finalize_once sampleServer rfl).2.1 rfl⟩

theorem disconnect_spec (s : DBusServer) (h1 : s.refcount ≠ 0)
    (hl : s.lockHeld = false) :
    (s.disconnected = false →
        dbus_server_disconnect s =
          Except.ok ⟨{ s with disconnected := true },
                     [Event.vtableDisconnect ⟨true, s.refcount + 1⟩], ()⟩) ∧
    (s.disconnected = true → dbus_server_disconnect s = Except.ok ⟨s, [], ()⟩) ∧
    (s.disconnected = false →
        dbus_server_disconnect { s with disconnected := true } =
          Except.ok ⟨{ s with disconnected := true }, [], ()⟩) := by
  refine ⟨fun hd => ?_, fun hd => ?_, fun hd => ?_⟩ <;>
    cases s <;>
    simp_all [dbus_server_disconnect, dbus_server_unref, _dbus_server_ref_unlocked,
      SERVER_LOCK, SERVER_UNLOCK, snap]

/-- C6: the first `dbus_server_disconnect` on a connected server flips
`disconnected` and invokes the vtable disconnect hook exactly once under
the lock; a second call is observably a no-op; in every call the net
reference-count change is zero (the final state carries the original
count). -/
theorem disconnect_idempotent (s : DBusServer) (h1 : s.refcount ≠ 0)
    (hl : s.lockHeld = false) :
    (s.disconnected = false →
        dbus_server_disconnect s =
          Except.ok ⟨{ s with disconnected := true },
                     [Event.vtableDisconnect ⟨true, s.refcount + 1⟩], ()⟩) ∧
    (s.disconnected = true → dbus_server_disconnect s = Except.ok ⟨s, [], ()⟩) ∧
    (s.disconnected = false →
        dbus_server_disconnect { s with disconnected := true } =
          Except.ok ⟨{ s with disconnected := true }, [], ()⟩) :=
  disconnect_spec s h1 hl

/-- C6 witness: disconnecting `sampleServer` flips the flag with one
vtable disconnect call under the lock and leaves the refcount at 1;
disconnecting again changes nothing and emits nothing. -/
theorem disconnect_idempotent_witness :
    dbus_server_disconnect sampleServer =
      Except.ok ⟨{ sampleServer with disconnected := true },
                 [Event.vtableDisconnect ⟨true, 2⟩], ()⟩ ∧
    dbus_server_disconnect { sampleServer with disconnected := true } =
      Except.ok ⟨{ sampleServer with disconnected := true }, [], ()⟩ :=
  ⟨(disconnect_idempotent sampleServer (by decide) rfl).1 rfl,
   (disconnect_idempotent sampleServer (by decide) rfl).2.2 rfl⟩

theorem set_new_connection_function_shape (s : DBusServer) (fn : Option Nat)
    (data : Nat) (ff : Option Nat) :
    (dbus_server_set_new_connection_function s fn data ff).events.all
      callbackUnlocked = true ∧
    (dbus_server_set_new_connection_function s fn data ff).state.address = s.address ∧
    (dbus_server_set_new_connection_function s fn data ff).state.guidHex = s.guidHex := by
  cases hf : s.newConnectionFreeDataFunction <;>
    simp [dbus_server_set_new_connection_function, SERVER_LOCK, SERVER_UNLOCK, snap,
          callbackUnlocked, hf]

theorem set_data_shape (s : DBusServer) (slot data : Nat) (ff : Option Nat)
    (allocOk : Bool) :
    (dbus_server_set_data s slot data ff allocOk).events.all callbackUnlocked = true ∧
    (dbus_server_set_data s slot data ff allocOk).state.address = s.address ∧
    (dbus_server_set_data s slot data ff allocOk).state.guidHex = s.guidHex := by
  cases allocOk with
  | false =>
    simp [dbus_server_set_data, _dbus_data_slot_list_set, SERVER_LOCK, SERVER_UNLOCK]
  | true =>
    cases hf : s.slotList.find? (fun p => p.1 == slot) with
    | none =>
      simp [dbus_server_set_data, _dbus_data_slot_list_set, hf,
            SERVER_LOCK, SERVER_UNLOCK, snap, callbackUnlocked]
    | some p =>
      obtain ⟨a, b, c⟩ := p
      cases c <;>
        simp [dbus_server_set_data, _dbus_data_slot_list_set, hf,
              SERVER_LOCK, SERVER_UNLOCK, snap, callbackUnlocked]

/-- C2: the server mutex is never held at the moment an
application-supplied callback is invoked: replacing the new-connection
function calls the previous free-data function after unlocking, setting
slot data calls the previous slot destructor after unlocking, and the
protected watch/timeout changes call the list functions only in the
window between unlock and relock — every `appCallback` event carries an
unlocked snapshot. -/
theorem callbacks_invoked_without_lock (s : DBusServer) (fn : Option Nat)
    (data : Nat) (ff : Option Nat) (slot dta : Nat) (slotFree : Option Nat)
    (allocOk : Bool) (mode : ChangeMode) (addResult : Bool) :
    (dbus_server_set_new_connection_function s fn data ff).events.all
      callbackUnlocked = true ∧
    (dbus_server_set_data s slot dta slotFree allocOk).events.all
      callbackUnlocked = true ∧
    (∀ r, protected_change_watch s mode addResult = Except.ok r →
        r.events.all callbackUnlocked = true) ∧
    (∀ r, protected_change_timeout s mode addResult = Except.ok r →
        r.events.all callbackUnlocked = true) :=
  ⟨(set_new_connection_function_shape s fn data ff).1,
   (set_data_shape s slot dta slotFree allocOk).1,
   fun r hr => (protected_change_watch_ok_shape s mode addResult r hr).1,
   fun r hr => (protected_change_timeout_ok_shape s mode addResult r hr).1⟩

/-- C2 witness: concrete runs of all four operations produce only
unlocked callback events. -/
theorem callbacks_invoked_without_lock_witness :
    (dbus_server_set_new_connection_function sampleServer (some 9) 10 (some 11)).events.all
      callbackUnlocked = true ∧
    (dbus_server_set_data sampleServer 0 12 (some 13) true).events.all
      callbackUnlocked = true ∧
    protWatchResult.events.all callbackUnlocked = true ∧
    protTimeoutResult.events.all callbackUnlocked = true :=
  ⟨(callbacks_invoked_without_lock sampleServer (some 9) 10 (some 11) 0 12 (some 13)
      true ChangeMode.add true).1,
   (callbacks_invoked_without_lock sampleServer (some 9) 10 (some 11) 0 12 (some 13)
      true ChangeMode.add true).2.1,
   (callbacks_invoked_without_lock sampleServerLocked (some 9) 10 (some 11) 0 12 (some 13)
      true ChangeMode.add true).2.2.1 protWatchResult rfl,
   (callbacks_invoked_without_lock sampleServerLocked (some 9) 10 (some 11) 0 12 (some 13)
      true ChangeMode.add true).2.2.2 protTimeoutResult rfl⟩

/-- C4: any watch/timeout add/remove/toggle and the watch/timeout
function installation fail fast returning `FALSE`, with no application
call-out and the state untouched, when the registry is found already
detached; otherwise they detach the registry, call out with the lock
released, and reattach the very same registry, restoring the state. -/
theorem reentrancy_guard_fails_fast (s : DBusServer) (mode : ChangeMode)
    (ar sfr tfr : Bool) (w t : Nat) :
    (s.watches = none → protected_change_watch s mode ar = Except.ok ⟨s, [], false⟩) ∧
    (s.timeouts = none → protected_change_timeout s mode ar = Except.ok ⟨s, [], false⟩) ∧
    (s.watches = none → s.lockHeld = false →
        dbus_server_set_watch_functions s sfr = ⟨s, [], false⟩) ∧
    (s.timeouts = none → s.lockHeld = false →
        dbus_server_set_timeout_functions s tfr = ⟨s, [], false⟩) ∧
    (s.watches = some w → s.refcount ≠ 0 → s.lockHeld = true →
        protected_change_watch s mode ar =
          Except.ok ⟨s, [Event.appCallback "watch_list_function" ⟨false, s.refcount + 1⟩],
                     protectedRet mode ar⟩) ∧
    (s.timeouts = some t → s.refcount ≠ 0 → s.lockHeld = true →
        protected_change_timeout s mode ar =
          Except.ok ⟨s, [Event.appCallback "timeout_list_function" ⟨false, s.refcount + 1⟩],
                     protectedRet mode ar⟩) ∧
    (s.watches = some w → s.lockHeld = false →
        dbus_server_set_watch_functions s sfr =
          ⟨s, [Event.appCallback "watch_list_set_functions" ⟨false, s.refcount⟩], sfr⟩) ∧
    (s.timeouts = some t → s.lockHeld = false →
        dbus_server_set_timeout_functions s tfr =
          ⟨s, [Event.appCallback "timeout_list_set_functions" ⟨false, s.refcount⟩], tfr⟩) := by
  refine ⟨fun hw => protected_change_watch_none s mode ar hw,
          fun ht => protected_change_timeout_none s mode ar ht,
          fun hw hl => set_watch_functions_none s sfr hw hl,
          fun ht hl => set_timeout_functions_none s tfr ht hl,
          fun hw hrc hl => ?_, fun ht hrc hl => ?_,
          fun hw hl => set_watch_functions_some s sfr w hw hl,
          fun ht hl => set_timeout_functions_some s tfr t ht hl⟩
  · have he : { s with lockHeld := true } = s := by cases s; simp_all
    rw [protected_change_watch_some s mode ar w hw hrc, he]
  · have he : { s with lockHeld := true } = s := by cases s; simp_all
    rw [protected_change_timeout_some s mode ar t ht hrc, he]

/-- C4 witness: with the watch registry detached both the protected
change and the function installation return `FALSE` leaving the state
untouched; with it attached the protected change restores the state
exactly and reattaches the same registry. -/
theorem reentrancy_guard_fails_fast_witness :
    protected_change_watch sampleServerDetached ChangeMode.add true =
      Except.ok ⟨sampleServerDetached, [], false⟩ ∧
    dbus_server_set_watch_functions sampleServerDetached true =
      ⟨sampleServerDetached, [], false⟩ ∧
    protected_change_watch sampleServerLocked ChangeMode.add true =
      Except.ok protWatchResult :=
  ⟨(reentrancy_guard_fails_fast sampleServerDetached ChangeMode.add true true true 1 2).1 rfl,
   (reentrancy_guard_fails_fast sampleServerDetached ChangeMode.add true true true 1 2).2.2.1
      rfl rfl,
   (reentrancy_guard_fails_fast sampleServerLocked ChangeMode.add true true true 1 2).2.2.2.2.1
      rfl (by decide) rfl⟩

/-- C5 counterexample: `dbus_server_set_watch_functions` releases the
lock and invokes the watch-list installation call-out with the reference
count still at its initial value — contrary to the claim, no reference
is taken before unlocking on this path. -/
theorem set_watch_functions_no_extra_ref_cex :
    (dbus_server_set_watch_functions sampleServer true).events =
      [Event.appCallback "watch_list_set_functions" ⟨false, sampleServer.refcount⟩] ∧
    (dbus_server_set_watch_functions sampleServer true).events.all
      (extraRefAtCallback sampleServer.refcount) = false :=
  ⟨rfl, rfl⟩

/-- C5 (amended): `protected_change_watch` and
`protected_change_timeout` increment the reference count before
unlocking — every call-out sees a strictly larger count — and decrement
it after the window, restoring the original count; but
`dbus_server_set_watch_functions` and
`dbus_server_set_timeout_functions` release the lock and call out with
no extra reference, the count unchanged. -/
theorem extra_ref_only_in_protected_change (s : DBusServer) (mode : ChangeMode)
    (ar sfr tfr : Bool) (h1 : s.refcount ≠ 0) :
    (∀ r, protected_change_watch s mode ar = Except.ok r →
        r.events.all (extraRefAtCallback s.refcount) = true ∧
        r.state.refcount = s.refcount) ∧
    (∀ r, protected_change_timeout s mode ar = Except.ok r →
        r.events.all (extraRefAtCallback s.refcount) = true ∧
        r.state.refcount = s.refcount) ∧
    (dbus_server_set_watch_functions s sfr).events.all
        (sameRefAtCallback s.refcount) = true ∧
    (dbus_server_set_timeout_functions s tfr).events.all
        (sameRefAtCallback s.refcount) = true := by
  refine ⟨fun r hr => ?_, fun r hr => ?_, ?_, ?_⟩
  · cases hw : s.watches with
    | none =>
      rw [protected_change_watch_none s mode ar hw] at hr
      injection hr with hr
      subst hr
      exact ⟨rfl, rfl⟩
    | some w =>
      rw [protected_change_watch_some s mode ar w hw h1] at hr
      injection hr with hr
      subst hr
      simp [extraRefAtCallback, Nat.lt_succ_self]
  · cases ht : s.timeouts with
    | none =>
      rw [protected_change_timeout_none s mode ar ht] at hr
      injection hr with hr
      subst hr
      exact ⟨rfl, rfl⟩
    | some t =>
      rw [protected_change_timeout_some s mode ar t ht h1] at hr
      injection hr with hr
      subst hr
      simp [extraRefAtCallback, Nat.lt_succ_self]
  · cases hw : s.watches with
    | none =>
      simp [dbus_server_set_watch_functions, hw, SERVER_LOCK, SERVER_UNLOCK]
    | some w =>
      simp [dbus_server_set_watch_functions, hw, SERVER_LOCK, SERVER_UNLOCK, snap,
            sameRefAtCallback]
  · cases ht : s.timeouts with
    | none =>
      simp [dbus_server_set_timeout_functions, ht, SERVER_LOCK, SERVER_UNLOCK]
    | some t =>
      simp [dbus_server_set_timeout_functions, ht, SERVER_LOCK, SERVER_UNLOCK, snap,
            sameRefAtCallback]

/-- C5 (amended) witness: the protected change on `sampleServerLocked`
holds an extra reference during its call-out and restores the count,
while the installation path calls out with the count unchanged. -/
theorem extra_ref_only_in_protected_change_witness :
    (protWatchResult.events.all (extraRefAtCallback sampleServerLocked.refcount) = true ∧
     protWatchResult.state.refcount = sampleServerLocked.refcount) ∧
    (dbus_server_set_watch_functions sampleServer true).events.all
      (sameRefAtCallback sampleServer.refcount) = true :=
  ⟨(extra_ref_only_in_protected_change sampleServerLocked ChangeMode.add true true true
      (by decide)).1 protWatchResult rfl,
   (extra_ref_only_in_protected_change sampleServer ChangeMode.add true true true
      (by decide)).2.2.1⟩

theorem set_auth_mechanisms_fields (s : DBusServer) (m : Option (List String))
    (allocOk : Bool) :
    (dbus_server_set_auth_mechanisms s m allocOk).state.address = s.address ∧
    (dbus_server_set_auth_mechanisms s m allocOk).state.guidHex = s.guidHex := by
  cases m <;> cases allocOk <;>
    simp [dbus_server_set_auth_mechanisms, SERVER_LOCK, SERVER_UNLOCK]

theorem set_watch_functions_fields (s : DBusServer) (sfr : Bool) :
    (dbus_server_set_watch_functions s sfr).state.address = s.address ∧
    (dbus_server_set_watch_functions s sfr).state.guidHex = s.guidHex := by
  cases hw : s.watches <;>
    simp [dbus_server_set_watch_functions, hw, SERVER_LOCK, SERVER_UNLOCK]

theorem set_timeout_functions_fields (s : DBusServer) (tfr : Bool) :
    (dbus_server_set_timeout_functions s tfr).state.address = s.address ∧
    (dbus_server_set_timeout_functions s tfr).state.guidHex = s.guidHex := by
  cases ht : s.timeouts <;>
    simp [dbus_server_set_timeout_functions, ht, SERVER_LOCK, SERVER_UNLOCK]

theorem disconnect_fields (s : DBusServer) (r : OpResult Unit)
    (hr : dbus_server_disconnect s = Except.ok r) :
    r.state.address = s.address ∧ r.state.guidHex = s.guidHex := by
  by_cases hrc : s.refcount = 0
  · simp only [dbus_server_disconnect, hrc, reduceIte] at hr
    injection hr with hr
    subst hr
    exact ⟨rfl, rfl⟩
  · by_cases hd : s.disconnected <;>
      simp only [dbus_server_disconnect, dbus_server_unref, _dbus_server_ref_unlocked,
        SERVER_LOCK, SERVER_UNLOCK, snap, hrc, hd] at hr <;>
      simp only [Nat.add_sub_cancel, Nat.succ_ne_zero, hrc, reduceIte,
        not_false_eq_true, not_true_eq_false, Bool.false_eq_true, if_false, if_true] at hr <;>
      (injection hr with hr; subst hr; exact ⟨rfl, rfl⟩)

/-- C8: a server successfully constructed through
`_dbus_server_init_base` stores exactly the input address with `,guid=`
and the hex-encoded fresh identifier appended, and every modelled
operation on the resulting server leaves its address and guid
untouched. -/
theorem init_base_address_guid_appended (address guidHex : String) (a : InitAlloc)
    (srv : DBusServer) (hinit : _dbus_server_init_base address guidHex a = some srv) :
    srv.address = address ++ ",guid=" ++ guidHex ∧
    srv.guidHex = guidHex ∧
    (∀ fn data ff,
        (dbus_server_set_new_connection_function srv fn data ff).state.address
          = srv.address ∧
        (dbus_server_set_new_connection_function srv fn data ff).state.guidHex
          = srv.guidHex) ∧
    (∀ slot dta ff allocOk,
        (dbus_server_set_data srv slot dta ff allocOk).state.address = srv.address ∧
        (dbus_server_set_data srv slot dta ff allocOk).state.guidHex = srv.guidHex) ∧
    (∀ m allocOk,
        (dbus_server_set_auth_mechanisms srv m allocOk).state.address = srv.address ∧
        (dbus_server_set_auth_mechanisms srv m allocOk).state.guidHex = srv.guidHex) ∧
    (∀ sfr, (dbus_server_set_watch_functions srv sfr).state.address = srv.address ∧
        (dbus_server_set_watch_functions srv sfr).state.guidHex = srv.guidHex) ∧
    (∀ tfr, (dbus_server_set_timeout_functions srv tfr).state.address = srv.address ∧
        (dbus_server_set_timeout_functions srv tfr).state.guidHex = srv.guidHex) ∧
    (∀ allocOk, (dbus_server_get_address srv allocOk).state.address = srv.address ∧
        (dbus_server_get_address srv allocOk).state.guidHex = srv.guidHex) ∧
    (∀ mode ar r, protected_change_watch srv mode ar = Except.ok r →
        r.state.address = srv.address ∧ r.state.guidHex = srv.guidHex) ∧
    (∀ mode ar r, protected_change_timeout srv mode ar = Except.ok r →
        r.state.address = srv.address ∧ r.state.guidHex = srv.guidHex) ∧
    (∀ r, dbus_server_disconnect srv = Except.ok r →
        r.state.address = srv.address ∧ r.state.guidHex = srv.guidHex) := by
  refine ⟨?_, ?_,
          fun fn data ff => set_new_connection_function_shape srv fn data ff |>.2,
          fun slot dta ff allocOk => set_data_shape srv slot dta ff allocOk |>.2,
          fun m allocOk => set_auth_mechanisms_fields srv m allocOk,
          fun sfr => set_watch_functions_fields srv sfr,
          fun tfr => set_timeout_functions_fields srv tfr,
          fun allocOk => ⟨rfl, rfl⟩,
          fun mode ar r hr => protected_change_watch_ok_shape srv mode ar r hr |>.2,
          fun mode ar r hr => protected_change_timeout_ok_shape srv mode ar r hr |>.2,
          fun r hr => disconnect_fields srv r hr⟩ <;>
  · obtain ⟨g, u, ac, m, wl, tl⟩ := a
    cases g <;> cases u <;> cases ac <;> cases m <;> cases wl <;> cases tl <;>
      simp_all [_dbus_server_init_base, copy_address_with_guid_appended]
    subst hinit
    rfl

/-- C8 witness: a concrete successful initialization yields exactly the
input address with the guid parameter appended. -/
theorem init_base_address_guid_appended_witness :
    initServer.address =
      "unix:path=/tmp/test" ++ ",guid=" ++ "0123456789abcdef0123456789abcdef" ∧
    initServer.guidHex = "0123456789abcdef0123456789abcdef" :=
  ⟨(init_base_address_guid_appended "unix:path=/tmp/test"
      "0123456789abcdef0123456789abcdef" initAllOk initServer rfl).1,
   (init_base_address_guid_appended "unix:path=/tmp/test"
      "0123456789abcdef0123456789abcdef" initAllOk initServer rfl).2.1⟩

/-- C9: evaluation of `dbus_server_set_auth_mechanisms` at the failing
input — non-NULL mechanisms whose duplication fails — shows it returns
`FALSE` with the previously installed mechanism list unchanged but with
the server mutex still held, contradicting the claimed
release-on-every-path; on the success path the wholesale swap happens
and the lock is released. -/
theorem set_auth_mechanisms_alloc_failure_keeps_lock :
    (dbus_server_set_auth_mechanisms sampleServer (some ["EXTERNAL"]) false).ret
      = false ∧
    (dbus_server_set_auth_mechanisms sampleServer (some ["EXTERNAL"]) false).state.lockHeld
      = true ∧
    (dbus_server_set_auth_mechanisms sampleServer (some ["EXTERNAL"]) false).state.authMechanisms
      = sampleServer.authMechanisms ∧
    (dbus_server_set_auth_mechanisms sampleServer (some ["EXTERNAL"]) true).state.lockHeld
      = false ∧
    (dbus_server_set_auth_mechanisms sampleServer (some ["EXTERNAL"]) true).state.authMechanisms
      = some ["EXTERNAL"] ∧
    (dbus_server_set_auth_mechanisms sampleServer (some ["EXTERNAL"]) true).ret = true :=
  ⟨rfl, rfl, rfl, rfl, rfl, rfl⟩

/-- C10: `dbus_server_get_address` returns a freshly duplicated copy of
the stored address when memory is available and `NULL` when duplication
fails, in both cases leaving the server state unchanged. -/
theorem get_address_strdup_or_null (s : DBusServer) (allocOk : Bool)
    (hl : s.lockHeld = false) :
    (dbus_server_get_address s allocOk).state = s ∧
    (dbus_server_get_address s allocOk).events = [] ∧
    (dbus_server_get_address s allocOk).ret =
      (if allocOk then some s.address else none) := by
  cases s
  simp_all [dbus_server_get_address, _dbus_strdup, SERVER_LOCK, SERVER_UNLOCK]

/-- C10 witness: on `sampleServer`, a successful duplication returns the
stored address and a failed one returns `NULL`, the state unchanged both
times. -/
theorem get_address_strdup_or_null_witness :
    (dbus_server_get_address sampleServer true).state = sampleServer ∧
    (dbus_server_get_address sampleServer true).ret = some sampleServer.address ∧
    (dbus_server_get_address sampleServer false).state = sampleServer ∧
    (dbus_server_get_address sampleServer false).ret = none :=
  ⟨(get_address_strdup_or_null sampleServer true rfl).1,
   (get_address_strdup_or_null sampleServer true rfl).2.2,
   (get_address_strdup_or_null sampleServer false rfl).1,
   (get_address_strdup_or_null sampleServer false rfl).2.2⟩

end DBusServerSpec
